import Mathlib

/-!
# Verification of the breakout-session validation engine and label reconciliation

Shallow embedding of the decision logic of `tools/lib/validate.mjs`,
`tools/lib/chairs.mjs` and `tools/update-session-labels.mjs`.

JavaScript semantics conventions used throughout:
- optional / possibly-`undefined` fields become `Option` values;
- JavaScript truthiness of strings (`""` and `undefined` are falsy) and of
  numbers (`0` is falsy) is made explicit through `truthyStr` / `truthyNat`;
- a thrown JavaScript exception becomes `Except.error` carrying a `JsError`;
- array element identity (`s !== session`) is modelled positionally: the
  session found by `find` is the element at the found index, and "other
  sessions" are the elements at all other indices;
- `Array.prototype.sort()` on strings is modelled by an insertion sort on
  the lexicographic order;
- indexing an array with a string key (`rooms[name]`) yields an element only
  when the key is the canonical decimal representation of an in-bounds index,
  exactly as in JavaScript.
-/

/-- JavaScript truthiness of a possibly-undefined string: `undefined` and the
empty string are falsy. -/
def truthyStr (o : Option String) : Bool :=
  match o with
  | none => false
  | some s => s ≠ ""

/-- JavaScript truthiness of a possibly-undefined number: `undefined` and `0`
are falsy. -/
def truthyNat (o : Option Nat) : Bool :=
  match o with
  | none => false
  | some k => k ≠ 0

/-- Coercion of a possibly-undefined string to the string used when the value
is interpolated in a message (call sites only do this on truthy values). -/
def jsStr (o : Option String) : String :=
  o.getD ""

/-- JavaScript `String.prototype.startsWith`, modelled as a character-list
prefix test (extensionally the prefix relation on strings). -/
def jsStartsWith (s pre : String) : Bool :=
  pre.data.isPrefixOf s.data

/-- The decimal value of a character, `none` for a non-digit. -/
def charDigit? (c : Char) : Option Nat :=
  if 48 ≤ c.toNat ∧ c.toNat ≤ 57 then some (c.toNat - 48) else none

/-- The decimal value of a character string, `none` when any character is not
a digit. -/
def decimalValue : List Char → Nat → Option Nat
  | [], acc => some acc
  | c :: cs, acc =>
    match charDigit? c with
    | some d => decimalValue cs (acc * 10 + d)
    | none => none

/-- JavaScript string indexing of an array: `xs[key]` is an element exactly
when `key` is the canonical decimal representation of an index below the
length (all digits, no leading zero except for "0" itself); any other string
key reads a property the array does not have, i.e. `undefined`. -/
def jsArrayGet {α : Type} (xs : List α) (key : String) : Option α :=
  match key.data with
  | [] => none
  | c :: cs =>
    if c = '0' ∧ cs ≠ [] then none
    else
      match decimalValue (c :: cs) 0 with
      | some n => xs.get? n
      | none => none

/-- `Array.prototype.find` on a list. -/
def jsFind {α : Type} (xs : List α) (p : α → Bool) : Option α :=
  xs.find? p

/-- Pair every element with its index, starting at `k`. -/
def enumFrom {α : Type} (k : Nat) : List α → List (Nat × α)
  | [] => []
  | x :: xs => (k, x) :: enumFrom (k + 1) xs

/-- `Array.prototype.find` returning the index together with the element, used
to model JavaScript object identity (`s !== session`) positionally. -/
def findWithIdx {α : Type} (p : α → Bool) : List α → Option (Nat × α)
  | [] => none
  | x :: xs =>
    if p x then some (0, x)
    else (findWithIdx p xs).map (fun q => (q.1 + 1, q.2))

/-- The sessions other than the one sitting at index `idx` (the model of the
`s !== session` filters). -/
def othersOf {α : Type} (xs : List α) (idx : Nat) : List α :=
  ((enumFrom 0 xs).filter (fun q => q.1 ≠ idx)).map Prod.snd

/-- One insertion step of the string sort. -/
def jsSortInsert (x : String) : List String → List String
  | [] => [x]
  | y :: ys => if x ≤ y then x :: y :: ys else y :: jsSortInsert x ys

/-- `Array.prototype.sort()` on strings (lexicographic insertion sort). -/
def jsSort : List String → List String
  | [] => []
  | x :: xs => jsSortInsert x (jsSort xs)

/-- A thrown JavaScript exception. -/
inductive JsError : Type where
  | invalidProject (title : String) (problems : List String)
  | sessionNotFound (number : Nat) (title : String)
  | typeError (msg : String)
  | referenceError (msg : String)
  | jsError (msg : String)
deriving Repr, DecidableEq

/-- A room of the project snapshot (`fetchProject` in tools/lib/project.mjs
builds `{name, label, capacity}` records in an array). -/
structure Room where
  name : String
  label : String := ""
  capacity : Nat := 0
deriving Repr, DecidableEq

/-- A slot of the project snapshot (`stop` carries the source's `end` field,
which is a reserved word in Lean). -/
structure Slot where
  name : String
  start : String := ""
  stop : String := ""
  duration : Nat := 0
deriving Repr, DecidableEq

/-- An entry of the repository's label catalog. -/
structure LabelEntry where
  id : String
  name : String
deriving Repr, DecidableEq

/-- A session chair record, as produced by `fetchSessionChairs`
(tools/lib/chairs.mjs): optional GitHub identity and optional W3C account id.
The avatar URL, account name and email are carried by the source record but
are never read by the validation logic. -/
structure Chair where
  login : Option String := none
  name : Option String := none
  databaseId : Option Nat := none
  w3cId : Option Nat := none
deriving Repr, DecidableEq

/-- Modelled from the spec: the Session Description is produced by
`parseSessionBody` in tools/lib/session.mjs, which is not among the available
sources; the record follows spec §3 "Session Description" (goal, attendance
mode, requested capacity, declared conflicts, materials links, comments,
optional shortname/chairs). -/
structure Description where
  description : String := ""
  goal : String := ""
  attendance : String := ""
  duration : Nat := 0
  capacity : Nat := 0
  shortname : String := ""
  conflicts : Option (List Nat) := none
  materials : List (String × String) := []
  comments : Option String := none
  chairs : Option (List Chair) := none
deriving Repr, DecidableEq

/-- A session of the project snapshot (see the shape documented in
tools/lib/project.mjs). `description` and `chairs` are the lazily cached
derived fields filled in by `validateSession`. The author record and the
timestamps are carried by the snapshot but never read by the embedded rules,
so they are kept as plain strings. -/
structure Session where
  repository : String := ""
  number : Nat
  title : String := ""
  body : String := ""
  labels : List String := []
  author : String := ""
  createdAt : String := ""
  updatedAt : String := ""
  lastEditedAt : String := ""
  room : Option String := none
  slot : Option String := none
  description : Option Description := none
  chairs : Option (List Chair) := none
deriving Repr, DecidableEq

/-- Project metadata (event date, timezone, meeting name). -/
structure Metadata where
  date : String := ""
  timezone : String := ""
  meeting : String := ""
deriving Repr, DecidableEq

/-- The project snapshot (see tools/lib/project.mjs): rooms, slots, the label
catalog and the sessions. -/
structure Project where
  title : String := ""
  url : String := ""
  rooms : List Room := []
  slots : List Slot := []
  labels : List LabelEntry := []
  metadata : Metadata := {}
  sessions : List Session := []
deriving Repr, DecidableEq

/-- Issue severity, the fixed enum `{error, warning, check}` of spec §3. -/
inductive Severity : Type where
  | error
  | warning
  | check
deriving Repr, DecidableEq

/-- The severity string used when building `{severity}: {type}` label names. -/
def Severity.toLabel : Severity → String
  | .error => "error"
  | .warning => "warning"
  | .check => "check"

/-- A validation issue pushed by `validateSession`. The capacity issue is
pushed without a `messages` field in the source, hence the `Option`. -/
structure Issue where
  session : Nat
  severity : Severity
  type : String
  messages : Option (List String) := none
deriving Repr, DecidableEq

/-- Convenience constructor mirroring the object literals of the source. -/
def mkIssue (session : Nat) (severity : Severity) (type : String)
    (messages : Option (List String)) : Issue :=
  { session := session, severity := severity, type := type, messages := messages }

/-- The external collaborators consumed by the engine (spec §6):
`validateSessionBody` and `parseSessionBody` live in tools/lib/session.mjs,
which is not among the available sources, so they are abstract here
(`parseSessionBody` returns `none` when it would throw). `fetchSessionChairs`
performs network calls and is likewise abstract. `dateTimeMs` models
`new Date(string).getTime()` (`none` for an invalid date, i.e. `NaN`) and
`nowMs` models `new Date().getTime()` at the moment of the run. -/
structure Collab where
  validateSessionBody : String → List String
  parseSessionBody : String → Option Description
  fetchSessionChairs : Session → List Chair
  dateTimeMs : String → Option Int
  nowMs : Int

/-- Modelled from the spec: `validateProject` is imported from
tools/lib/project.mjs but that export is not among the available sources.
Spec §3 fixes the invariant it reports on: room / slot / label names are
unique within a snapshot and the snapshot must carry the required custom
fields ("Room" and "Slot"). It returns the list of problems, empty exactly
when the snapshot is structurally valid. -/
def validateProject (project : Project) : List String :=
  (if project.rooms.isEmpty then ["Missing required custom field \"Room\""] else []) ++
  (if project.slots.isEmpty then ["Missing required custom field \"Slot\""] else []) ++
  (if (project.rooms.map (fun r => r.name)).Nodup then [] else ["Duplicate room names"]) ++
  (if (project.slots.map (fun s => s.name)).Nodup then [] else ["Duplicate slot names"]) ++
  (if (project.labels.map (fun l => l.name)).Nodup then [] else ["Duplicate label names"])

/-- `validateSessionChairs` (tools/lib/chairs.mjs): one message per chair
lacking a GitHub account or a linked W3C account; throws when a chair record
has neither a `login` nor a `name`. The JS `.filter(error => !!error)` drops
the `null` entries (every produced message is a non-empty string). -/
def validateSessionChairs (chairs : List Chair) : Except JsError (List String) :=
  match chairs.mapM (fun chair =>
    let login := jsStr chair.login
    let name := jsStr chair.name
    if truthyStr chair.login then
      if !truthyNat chair.databaseId then
        Except.ok (some s!"No GitHub account associated with \"@{login}\"")
      else if !truthyNat chair.w3cId then
        Except.ok (some s!"No W3C account linked to the \"@{login}\" GitHub account")
      else Except.ok none
    else if truthyStr chair.name then
      if !truthyNat chair.w3cId then
        Except.ok (some s!"No W3C account linked to \"{name}\"")
      else Except.ok none
    else Except.error (JsError.jsError "Invalid chair object received in the list to validate")) with
  | Except.error e => Except.error e
  | Except.ok opts => Except.ok (opts.filterMap id)

/-- The chairs used by the validation run: the cached list when present,
otherwise the result of the `fetchSessionChairs` collaborator. -/
def cachedChairs (C : Collab) (session : Session) : List Chair :=
  match session.chairs with
  | some cs => cs
  | none => C.fetchSessionChairs session

/-- The messages of the conflict existence check (validate.mjs, "Make sure
sessions identified as conflicting actually exist"): the session must not
conflict with itself and every declared number must be in the project. -/
def conflictExistenceMessages (sessionNumber : Nat) (project : Project)
    (conflicts : List Nat) : List String :=
  (conflicts.map (fun number =>
    if number == sessionNumber then
      some "Session cannot conflict with itself"
    else
      match jsFind project.sessions (fun s => s.number == number) with
      | none => some s!"Conflicting session {number} is not in the project"
      | some _ => none)).filterMap id

/-- Conflict existence messages of a session description: the check only runs
when `description.conflicts` is defined (a JS array is always truthy). -/
def conflictErrorsOf (sessionNumber : Nat) (project : Project)
    (d : Description) : List String :=
  match d.conflicts with
  | some cs => conflictExistenceMessages sessionNumber project cs
  | none => []

/-- The message pushed for a scheduling collision. -/
def schedulingMessage (room slot title : String) (number : Nat) : String :=
  s!"Session scheduled in same room ({room}) and same slot ({slot}) as session \"{title}\" ({number})"

/-- The `collisions` intermediate of the scheduling check: the other scheduled
sessions sharing the validated session's room and slot. -/
def collisionsOf (project : Project) (idx : Nat) (session : Session) :
    List Session :=
  ((othersOf project.sessions idx).filter
    (fun s => truthyStr s.room && truthyStr s.slot)).filter
    (fun s => s.room == session.room && s.slot == session.slot)

/-- The `schedulingErrors` intermediate of the scheduling check: one message
per colliding session. -/
def schedulingErrorsOf (project : Project) (idx : Nat) (session : Session) :
    List String :=
  (collisionsOf project idx session).map
    (fun s => schedulingMessage (jsStr s.room) (jsStr s.slot) s.title s.number)

/-- The scheduling collision check (validate.mjs, "Make sure there is no
session scheduled at the same time in the same room"): only runs when the
session has both a room and a slot; every other scheduled session sharing
both yields a message. -/
def schedulingIssuesOf (sessionNumber : Nat) (project : Project) (idx : Nat)
    (session : Session) : List Issue :=
  if truthyStr session.room && truthyStr session.slot then
    if (schedulingErrorsOf project idx session).length > 0 then
      [mkIssue sessionNumber Severity.error "scheduling"
        (some (schedulingErrorsOf project idx session))]
    else []
  else []

/-- The capacity check (validate.mjs, "Check assigned room matches requested
capacity"): the source reads `project.rooms[session.room]`, i.e. indexes the
rooms array with the room name, so the lookup yields `undefined` for any
non-numeric room name and reading `.capacity` then throws a TypeError. -/
def capacityStep (sessionNumber : Nat) (project : Project) (session : Session)
    (d : Description) : Except JsError (List Issue) :=
  if truthyStr session.room && truthyNat (some d.capacity) then
    match jsArrayGet project.rooms (jsStr session.room) with
    | none =>
      Except.error (JsError.typeError "Cannot read properties of undefined (reading capacity)")
    | some room =>
      if room.capacity < d.capacity then
        Except.ok [mkIssue sessionNumber Severity.warning "capacity" none]
      else Except.ok []
  else Except.ok []

/-- The message pushed for a conflicting session sharing the slot. -/
def conflictSlotMessage (slot title : String) (number : Nat) : String :=
  s!"Same slot \"{slot}\" as conflicting session \"{title}\" (#{number})"

/-- The conflict-slot check (validate.mjs, "Check assigned slot is different
from conflicting sessions"): skipped when the conflict existence check
failed; reading `.slot` of a conflicting session that is not in the project
would throw, but the guard makes that unreachable. -/
def conflictSlotStep (sessionNumber : Nat) (project : Project)
    (session : Session) (d : Description) (hasConflictErrors : Bool) :
    Except JsError (List Issue) :=
  if !hasConflictErrors && truthyStr session.slot && d.conflicts.isSome then
    match (d.conflicts.getD []).mapM (fun number =>
      match jsFind project.sessions (fun s => s.number == number) with
      | none =>
        Except.error (JsError.typeError "Cannot read properties of undefined (reading slot)")
      | some cs =>
        Except.ok (if cs.slot == session.slot then
          some (conflictSlotMessage (jsStr session.slot) cs.title cs.number)
        else none)) with
    | Except.error e => Except.error e
    | Except.ok opts =>
      let conflictWarnings := opts.filterMap id
      if conflictWarnings.length > 0 then
        Except.ok [mkIssue sessionNumber Severity.warning "conflict" (some conflictWarnings)]
      else Except.ok []
  else Except.ok []

/-- The message built for a session in the same track sharing the slot. -/
def trackMessage (slot track title : String) (number : Nat) : String :=
  s!"Same slot \"{slot}\" as session in same track \"{track}\": \"{title}\" (#{number})"

/-- The aggregated `tracksWarnings` list of the track check (validate.mjs,
"Check absence of conflict with sessions in the same track(s)"). -/
def trackWarningsOf (project : Project) (idx : Nat) (session : Session) :
    List String :=
  let tracks := session.labels.filter (fun label => jsStartsWith label "track: ")
  tracks.foldl (fun acc track =>
    let sessionsInSameTrack :=
      (othersOf project.sessions idx).filter (fun s => s.labels.contains track)
    let trackWarnings := (sessionsInSameTrack.map (fun other =>
      if other.slot == session.slot then
        some (trackMessage (jsStr session.slot) track other.title other.number)
      else none)).filterMap id
    acc ++ trackWarnings) []

/-- The track check. When `tracksWarnings` is non-empty, the source pushes
`messages: trackWarnings`, but `trackWarnings` is a `const` scoped to the body
of the `for` loop above the push; evaluating the identifier there raises a
ReferenceError, so the whole validation call throws. -/
def trackStep (project : Project) (idx : Nat) (session : Session) :
    Except JsError (List Issue) :=
  if truthyStr session.slot then
    if (trackWarningsOf project idx session).length > 0 then
      Except.error (JsError.referenceError "trackWarnings is not defined")
    else Except.ok []
  else Except.ok []

/-- The comments-present check. -/
def commentsIssuesOf (sessionNumber : Nat) (d : Description) : List Issue :=
  if truthyStr d.comments then
    [mkIssue sessionNumber Severity.check "comments" (some ["Session contains comments"])]
  else []

/-- JS object lookup on the materials mapping. -/
def jsLookup (l : List (String × String)) (key : String) : Option String :=
  (l.find? (fun p => p.1 == key)).map Prod.snd

/-- `isMaterialMissing` (validate.mjs): the material is missing when absent,
empty, or a placeholder sentinel. -/
def isMaterialMissing (d : Description) (name : String) : Bool :=
  match jsLookup d.materials name with
  | none => true
  | some v => v == "" || ["@", "@@", "@@@", "TBD", "TODO"].contains v.toUpper

/-- 48 hours in milliseconds. -/
def twoDaysInMs : Int := 48 * 60 * 60 * 1000

/-- The agenda check: fires when the session is scheduled, the agenda material
is missing, and the event date is less than 48 hours away (or past). A date
string that does not parse gives `NaN`, whose comparisons are all false. -/
def agendaIssuesOf (C : Collab) (sessionNumber : Nat) (project : Project)
    (session : Session) (d : Description) : List Issue :=
  let scheduled := truthyStr session.room && truthyStr session.slot
  let inLessThanTwoDays :=
    match C.dateTimeMs project.metadata.date with
    | none => false
    | some t => decide (t - C.nowMs < twoDaysInMs)
  if scheduled && isMaterialMissing d "agenda" && inLessThanTwoDays then
    [mkIssue sessionNumber Severity.warning "agenda" (some ["Session needs a link to an agenda"])]
  else []

/-- The minutes check: symmetric to the agenda check, fires when the event
date is more than 48 hours in the past. -/
def minutesIssuesOf (C : Collab) (sessionNumber : Nat) (project : Project)
    (session : Session) (d : Description) : List Issue :=
  let scheduled := truthyStr session.room && truthyStr session.slot
  let atLeastTwoDaysOld :=
    match C.dateTimeMs project.metadata.date with
    | none => false
    | some t => decide (C.nowMs - t > twoDaysInMs)
  if scheduled && isMaterialMissing d "minutes" && atLeastTwoDaysOld then
    [mkIssue sessionNumber Severity.warning "minutes" (some ["Session needs a link to the minutes"])]
  else []

/-- The body of `validateSession` after the format stage: the chairs check,
then the conflict existence, scheduling, capacity, conflict-slot, track,
comments, agenda and minutes checks. The returned list concatenates the
per-step issue lists in source push order; the fallible steps are sequenced
in source evaluation order (chairs, capacity, conflict-slot, track), and a
throw anywhere discards the accumulated list, exactly as in the source. -/
def validateSessionRest (C : Collab) (sessionNumber : Nat) (project : Project)
    (idx : Nat) (session : Session) (d : Description) :
    Except JsError (List Issue) :=
  match validateSessionChairs (cachedChairs C session) with
  | Except.error e => Except.error e
  | Except.ok chairsErrors =>
    match capacityStep sessionNumber project session d with
    | Except.error e => Except.error e
    | Except.ok e4 =>
      match conflictSlotStep sessionNumber project session d
          (decide ((conflictErrorsOf sessionNumber project d).length > 0)) with
      | Except.error e => Except.error e
      | Except.ok e5 =>
        match trackStep project idx session with
        | Except.error e => Except.error e
        | Except.ok e6 =>
          Except.ok (
            (if chairsErrors.length > 0 then
              [mkIssue sessionNumber Severity.error "chairs" (some chairsErrors)]
            else []) ++
            (if (conflictErrorsOf sessionNumber project d).length > 0 then
              [mkIssue sessionNumber Severity.error "conflict"
                (some (conflictErrorsOf sessionNumber project d))]
            else []) ++
            schedulingIssuesOf sessionNumber project idx session ++
            e4 ++ e5 ++ e6 ++
            commentsIssuesOf sessionNumber d ++
            agendaIssuesOf C sessionNumber project session d ++
            minutesIssuesOf C sessionNumber project session d)

/-- `validateSession` (tools/lib/validate.mjs): throws when the snapshot is
structurally invalid or the session number does not resolve; then the body
format check with its early return, then the remaining rules. -/
def validateSession (C : Collab) (sessionNumber : Nat) (project : Project) :
    Except JsError (List Issue) :=
  let projectErrors := validateProject project
  if projectErrors.length > 0 then
    Except.error (JsError.invalidProject project.title projectErrors)
  else
    match findWithIdx (fun s => s.number == sessionNumber) project.sessions with
    | none => Except.error (JsError.sessionNotFound sessionNumber project.title)
    | some (idx, session) =>
      match session.description with
      | some d => validateSessionRest C sessionNumber project idx session d
      | none =>
        let formatErrors := C.validateSessionBody session.body
        if formatErrors.length > 0 then
          Except.ok [mkIssue sessionNumber Severity.error "format" (some formatErrors)]
        else
          match C.parseSessionBody session.body with
          | some d => validateSessionRest C sessionNumber project idx session d
          | none => Except.error (JsError.jsError "parseSessionBody threw")

/-- Whether `validateSession` returns normally with an issue of the given
severity and type among its results. -/
def emitsB (C : Collab) (sessionNumber : Nat) (project : Project)
    (severity : Severity) (type : String) : Bool :=
  match validateSession C sessionNumber project with
  | Except.ok issues => issues.any (fun i => i.severity == severity && i.type == type)
  | Except.error _ => false

/-- The `github.event.issue.changes` payload read by update-session-labels.mjs:
`changes.body.from` is the previous revision of the issue body when available. -/
structure Changes where
  bodyFrom : Option String := none
deriving Repr, DecidableEq

/-- The inner decision of the `check: comments` carve-out
(update-session-labels.mjs): with the changes payload at hand, the finding is
dropped from the report exactly when the previous body is available, both the
previous and the current body parse, and the comments section is unchanged; a
missing previous body or a parse failure (the catch branch) conservatively
keeps the finding. -/
def dropCommentsFinding (C : Collab) (report : List Issue) (session : Session)
    (changes : Changes) : List Issue :=
  if !truthyStr changes.bodyFrom then
    report
  else
    match C.parseSessionBody (jsStr changes.bodyFrom),
          C.parseSessionBody session.body with
    | some previousDescription, some newDescription =>
      if newDescription.comments == previousDescription.comments then
        report.filter (fun e =>
          !(e.severity == Severity.check && e.type == "comments"))
      else report
    | _, _ => report

/-- The `check: comments` carve-out of update-session-labels.mjs: it only
engages when the report carries a `check: comments` finding (`checkComments`
in the source), the session does not already have the label, and a changes
file was supplied. -/
def updateReport (C : Collab) (report : List Issue) (session : Session)
    (changesFile : Option String) (changes : Changes) : List Issue :=
  if (jsFind report
        (fun e => e.severity == Severity.check && e.type == "comments")).isSome &&
      !(session.labels.contains "check: comments") &&
      truthyStr changesFile then
    dropCommentsFinding C report session changes
  else report

/-- The session's current labels restricted to the three severity prefixes,
sorted (`sessionLabels` in update-session-labels.mjs). -/
def sessionLabelsOf (session : Session) : List String :=
  jsSort (session.labels.filter (fun s =>
    jsStartsWith s "check: " || jsStartsWith s "warning: " || jsStartsWith s "error: "))

/-- The `{severity}: {type}` projection of the report, sorted (`newLabels` in
update-session-labels.mjs). -/
def newLabelsOf (report : List Issue) : List String :=
  jsSort (report.map (fun e => e.severity.toLabel ++ ": " ++ e.type))

/-- The label names to add: wanted labels the session does not already have. -/
def labelsToAddNames (session : Session) (report : List Issue) : List String :=
  (newLabelsOf report).filter (fun label => !(sessionLabelsOf session).contains label)

/-- The label names to remove: present severity labels no longer wanted, the
literal "session" label excluded. -/
def labelsToRemoveNames (session : Session) (report : List Issue) : List String :=
  (sessionLabelsOf session).filter (fun label =>
    label != "session" && !(newLabelsOf report).contains label)

/-- Mapping label names to catalog ids, left to right
(`project.labels.find(l => l.name === label).id`): reading `.id` of a name
absent from the catalog throws a TypeError. -/
def mapToIds (catalog : List LabelEntry) : List String → Except JsError (List String)
  | [] => Except.ok []
  | name :: rest =>
    match jsFind catalog (fun l => l.name == name) with
    | some l =>
      match mapToIds catalog rest with
      | Except.ok ids => Except.ok (l.id :: ids)
      | Except.error e => Except.error e
    | none => Except.error (JsError.typeError "Cannot read properties of undefined (reading id)")

/-- The ids submitted to `addLabelsToLabelable`. -/
def labelsToAdd (catalog : List LabelEntry) (session : Session)
    (report : List Issue) : Except JsError (List String) :=
  mapToIds catalog (labelsToAddNames session report)

/-- The ids submitted to `removeLabelsFromLabelable`. -/
def labelsToRemove (catalog : List LabelEntry) (session : Session)
    (report : List Issue) : Except JsError (List String) :=
  mapToIds catalog (labelsToRemoveNames session report)

/-- A label name of the form reconciliation manages: `check: *`, `warning: *`
or `error: *`. -/
def hasSeverityPrefix (name : String) : Bool :=
  jsStartsWith name "check: " || jsStartsWith name "warning: " || jsStartsWith name "error: "

/-! ## Concrete inputs used by witnesses and counterexamples -/

/-- A quiet collaborator stub: no format problems, parsing yields the default
description, no chairs fetched, unparseable event date. -/
def stubCollab : Collab :=
  { validateSessionBody := fun _ => []
    parseSessionBody := fun _ => some {}
    fetchSessionChairs := fun _ => []
    dateTimeMs := fun _ => none
    nowMs := 0 }

/-- A collaborator stub whose body validation always reports one problem. -/
def failingFormatCollab : Collab :=
  { validateSessionBody := fun _ => ["Missing required section"]
    parseSessionBody := fun _ => none
    fetchSessionChairs := fun _ => []
    dateTimeMs := fun _ => none
    nowMs := 0 }

def c1session : Session :=
  { number := 42, title := "Session 42", room := some "Room A (15)",
    description := some { capacity := 30 }, chairs := some [] }

def c1project : Project :=
  { title := "TPAC breakouts",
    rooms := [{ name := "Room A (15)", label := "Room A", capacity := 15 }],
    slots := [{ name := "9:30 - 10:30" }],
    sessions := [c1session] }

def c2session : Session := { number := 5, body := "broken body" }

def c2project : Project :=
  { rooms := [{ name := "Room A (30)", label := "Room A", capacity := 30 }],
    slots := [{ name := "9:30 - 10:30" }],
    sessions := [c2session] }

def c3session1 : Session :=
  { number := 1, title := "S1", labels := ["session", "track: privacy"],
    slot := some "9:30 - 10:30", description := some {}, chairs := some [] }

def c3session2 : Session :=
  { number := 2, title := "S2", labels := ["session", "track: privacy"],
    slot := some "9:30 - 10:30", description := some {}, chairs := some [] }

def c3project : Project :=
  { rooms := [{ name := "Room A (30)", label := "Room A", capacity := 30 }],
    slots := [{ name := "9:30 - 10:30" }],
    sessions := [c3session1, c3session2] }

def c4sessionSmall : Session :=
  { number := 10, room := some "Main (15)",
    description := some { capacity := 30 }, chairs := some [] }

def c4projectSmall : Project :=
  { rooms := [{ name := "Main (15)", label := "Main", capacity := 15 }],
    slots := [{ name := "9:30 - 10:30" }],
    sessions := [c4sessionSmall] }

def c4sessionBig : Session :=
  { number := 10, room := some "Main (30)",
    description := some { capacity := 30 }, chairs := some [] }

def c4projectBig : Project :=
  { rooms := [{ name := "Main (30)", label := "Main", capacity := 30 }],
    slots := [{ name := "9:30 - 10:30" }],
    sessions := [c4sessionBig] }

def c5ws1 : Session :=
  { number := 1, title := "S1", room := some "Room A (30)",
    slot := some "9:30 - 10:30", description := some {}, chairs := some [] }

def c5ws2 : Session :=
  { number := 2, title := "S2", room := some "Room A (30)",
    slot := some "9:30 - 10:30", description := some {}, chairs := some [] }

def c5wproject : Project :=
  { rooms := [{ name := "Room A (30)", label := "Room A", capacity := 30 }],
    slots := [{ name := "9:30 - 10:30" }],
    sessions := [c5ws1, c5ws2] }

def c5wIssues : List Issue :=
  [mkIssue 1 Severity.error "scheduling"
    (some [schedulingMessage "Room A (30)" "9:30 - 10:30" "S2" 2])]

def c5xs1 : Session :=
  { number := 1, title := "S1", body := "broken", room := some "Room A (30)",
    slot := some "9:30 - 10:30" }

def c5xs2 : Session :=
  { number := 2, title := "S2", room := some "Room A (30)",
    slot := some "9:30 - 10:30", description := some {}, chairs := some [] }

def c5xproject : Project :=
  { rooms := [{ name := "Room A (30)", label := "Room A", capacity := 30 }],
    slots := [{ name := "9:30 - 10:30" }],
    sessions := [c5xs1, c5xs2] }

def c6desc : Description := { conflicts := some [99] }

def c6session : Session :=
  { number := 7, title := "S7", description := some c6desc, chairs := some [] }

def c6project : Project :=
  { rooms := [{ name := "Room A (30)", label := "Room A", capacity := 30 }],
    slots := [{ name := "9:30 - 10:30" }],
    sessions := [c6session] }

def c6Issues : List Issue :=
  [mkIssue 7 Severity.error "conflict"
    (some ["Conflicting session 99 is not in the project"])]

def c6xdesc : Description := { capacity := 30, conflicts := some [7] }

def c6xsession : Session :=
  { number := 7, title := "S7", room := some "Big room (15)",
    description := some c6xdesc, chairs := some [] }

def c6xproject : Project :=
  { rooms := [{ name := "Big room (15)", label := "Big room", capacity := 15 }],
    slots := [{ name := "9:30 - 10:30" }],
    sessions := [c6xsession] }

def c7session : Session :=
  { number := 9, labels := ["session", "track: media", "error: format"] }

def c7report : List Issue :=
  [mkIssue 9 Severity.error "format" (some ["Unknown section"])]

def c7catalog : List LabelEntry :=
  [{ id := "lbl-1", name := "error: format" }, { id := "lbl-2", name := "session" }]

def c8session : Session :=
  { number := 11, labels := ["session", "track: privacy", "warning: capacity"] }

def c8report : List Issue :=
  [mkIssue 11 Severity.error "scheduling" (some ["clash"])]

def c8catalog : List LabelEntry :=
  [{ id := "lbl-a", name := "error: scheduling" },
   { id := "lbl-b", name := "warning: capacity" },
   { id := "lbl-c", name := "session" }]

def c9report : List Issue :=
  [mkIssue 13 Severity.check "comments" (some ["Session contains comments"])]

def c9session : Session := { number := 13, labels := ["session"] }

def c10desc : Description := { comments := some "please review" }

def c10session : Session :=
  { number := 3, body := "whatever broken", description := some c10desc,
    chairs := some [] }

def c10project : Project :=
  { rooms := [{ name := "Room A (30)", label := "Room A", capacity := 30 }],
    slots := [{ name := "9:30 - 10:30" }],
    sessions := [c10session] }

def c10Issues : List Issue :=
  [mkIssue 3 Severity.check "comments" (some ["Session contains comments"])]

/-! ## Helper lemmas about the JavaScript semantics helpers -/

lemma mem_jsSortInsert {a x : String} {l : List String} :
    a ∈ jsSortInsert x l ↔ a = x ∨ a ∈ l := by
  induction l with
  | nil => simp [jsSortInsert]
  | cons y ys ih =>
    simp only [jsSortInsert]
    split
    · simp
    · simp [ih]
      tauto

lemma mem_jsSort {a : String} {l : List String} : a ∈ jsSort l ↔ a ∈ l := by
  induction l with
  | nil => simp [jsSort]
  | cons x xs ih => simp [jsSort, mem_jsSortInsert, ih]

lemma mem_enumFrom {α : Type} {l : List α} {j : Nat} {a : α} (k : Nat)
    (h : l[j]? = some a) : (k + j, a) ∈ enumFrom k l := by
  induction l generalizing k j with
  | nil => simp at h
  | cons x xs ih =>
    cases j with
    | zero =>
      simp at h
      subst h
      simp [enumFrom]
    | succ j =>
      simp at h
      have := ih (k := k + 1) h
      simp only [enumFrom, List.mem_cons]
      right
      have harith : k + (j + 1) = k + 1 + j := by omega
      rw [harith]
      exact this

lemma mem_othersOf {l : List Session} {j idx : Nat} {s : Session}
    (h : l[j]? = some s) (hne : j ≠ idx) : s ∈ othersOf l idx := by
  unfold othersOf
  apply List.mem_map.mpr
  refine ⟨(j, s), ?_, rfl⟩
  apply List.mem_filter.mpr
  constructor
  · simpa using mem_enumFrom 0 h
  · simpa using hne

lemma jsStartsWith_append (pre rest : String) :
    jsStartsWith (pre ++ rest) pre = true := by
  unfold jsStartsWith
  rw [String.data_append pre rest]
  exact List.isPrefixOf_iff_prefix.mpr (List.prefix_append pre.data rest.data)

/-! ## Characterization of the individual validation steps -/

lemma schedulingIssuesOf_types {n : Nat} {project : Project} {idx : Nat}
    {session : Session} :
    ∀ i ∈ schedulingIssuesOf n project idx session,
      i.severity = Severity.error ∧ i.type = "scheduling" := by
  intro i hi
  unfold schedulingIssuesOf at hi
  split at hi
  · split at hi
    · simp at hi
      subst hi
      exact ⟨rfl, rfl⟩
    · simp at hi
  · simp at hi

lemma capacityStep_ok_types {n : Nat} {project : Project} {session : Session}
    {d : Description} {l : List Issue}
    (h : capacityStep n project session d = Except.ok l) :
    ∀ i ∈ l, i.severity = Severity.warning ∧ i.type = "capacity" := by
  intro i hi
  unfold capacityStep at h
  split at h
  · split at h
    · cases h
    · split at h
      · cases h
        simp at hi
        subst hi
        exact ⟨rfl, rfl⟩
      · cases h
        simp at hi
  · cases h
    simp at hi

lemma conflictSlotStep_ok_types {n : Nat} {project : Project}
    {session : Session} {d : Description} {flag : Bool} {l : List Issue}
    (h : conflictSlotStep n project session d flag = Except.ok l) :
    ∀ i ∈ l, i.severity = Severity.warning ∧ i.type = "conflict" := by
  intro i hi
  simp only [conflictSlotStep] at h
  split at h
  · split at h
    · cases h
    · split at h
      · cases h
        simp at hi
        subst hi
        exact ⟨rfl, rfl⟩
      · cases h
        simp at hi
  · cases h
    simp at hi

lemma conflictSlotStep_true {n : Nat} {project : Project} {session : Session}
    {d : Description} :
    conflictSlotStep n project session d true = Except.ok [] := by
  unfold conflictSlotStep
  simp

lemma trackStep_ok_nil {project : Project} {idx : Nat} {session : Session}
    {l : List Issue} (h : trackStep project idx session = Except.ok l) :
    l = [] := by
  unfold trackStep at h
  split at h
  · split at h
    · cases h
    · cases h
      rfl
  · cases h
    rfl

lemma commentsIssuesOf_types {n : Nat} {d : Description} :
    ∀ i ∈ commentsIssuesOf n d,
      i.severity = Severity.check ∧ i.type = "comments" := by
  intro i hi
  unfold commentsIssuesOf at hi
  split at hi
  · simp at hi
    subst hi
    exact ⟨rfl, rfl⟩
  · simp at hi

lemma agendaIssuesOf_types {C : Collab} {n : Nat} {project : Project}
    {session : Session} {d : Description} :
    ∀ i ∈ agendaIssuesOf C n project session d,
      i.severity = Severity.warning ∧ i.type = "agenda" := by
  intro i hi
  unfold agendaIssuesOf at hi
  split at hi
  · simp at hi
  · simp at hi
    obtain ⟨-, rfl⟩ := hi
    exact ⟨rfl, rfl⟩

lemma minutesIssuesOf_types {C : Collab} {n : Nat} {project : Project}
    {session : Session} {d : Description} :
    ∀ i ∈ minutesIssuesOf C n project session d,
      i.severity = Severity.warning ∧ i.type = "minutes" := by
  intro i hi
  unfold minutesIssuesOf at hi
  split at hi
  · simp at hi
  · simp at hi
    obtain ⟨-, rfl⟩ := hi
    exact ⟨rfl, rfl⟩

/-- Decomposition of a normal return of the rules that follow the format
stage: each step returned normally and the issue list is the concatenation of
the per-step issue lists, in push order. -/
lemma validateSessionRest_ok {C : Collab} {n : Nat} {project : Project}
    {idx : Nat} {session : Session} {d : Description} {issues : List Issue}
    (h : validateSessionRest C n project idx session d = Except.ok issues) :
    ∃ chairsErrors e4 e5 e6,
      validateSessionChairs (cachedChairs C session) = Except.ok chairsErrors ∧
      capacityStep n project session d = Except.ok e4 ∧
      conflictSlotStep n project session d
        (decide ((conflictErrorsOf n project d).length > 0)) = Except.ok e5 ∧
      trackStep project idx session = Except.ok e6 ∧
      issues =
        (if chairsErrors.length > 0 then
          [mkIssue n Severity.error "chairs" (some chairsErrors)] else []) ++
        (if (conflictErrorsOf n project d).length > 0 then
          [mkIssue n Severity.error "conflict" (some (conflictErrorsOf n project d))] else []) ++
        schedulingIssuesOf n project idx session ++ e4 ++ e5 ++ e6 ++
        commentsIssuesOf n d ++ agendaIssuesOf C n project session d ++
        minutesIssuesOf C n project session d := by
  unfold validateSessionRest at h
  split at h
  · cases h
  · split at h
    · cases h
    · split at h
      · cases h
      · split at h
        · cases h
        · cases h
          exact ⟨_, _, _, _, by assumption, by assumption, by assumption, by assumption, rfl⟩

/-- A normal return of `validateSession` that carries no `error:format` issue
went through the post-format rules with some description: the cached one, or
the one freshly parsed from the body. -/
lemma validateSession_ok_rest {C : Collab} {n : Nat} {project : Project}
    {idx : Nat} {session : Session} {issues : List Issue}
    (hfind : findWithIdx (fun s => s.number == n) project.sessions =
      some (idx, session))
    (hok : validateSession C n project = Except.ok issues)
    (hnf : ∀ i ∈ issues, ¬(i.severity = Severity.error ∧ i.type = "format")) :
    ∃ d, validateSessionRest C n project idx session d = Except.ok issues ∧
      (session.description = some d ∨
        (session.description = none ∧ C.parseSessionBody session.body = some d)) := by
  unfold validateSession at hok
  dsimp only at hok
  split at hok
  · cases hok
  · split at hok
    · rename_i heq2
      rw [hfind] at heq2
      cases heq2
    · rename_i idx' session' heq2
      have hps : some (idx, session) = some (idx', session') := hfind.symm.trans heq2
      simp only [Option.some.injEq, Prod.mk.injEq] at hps
      obtain ⟨hidx, hsession⟩ := hps
      subst hidx
      subst hsession
      split at hok
      · rename_i d hdesc
        exact ⟨d, hok, Or.inl hdesc⟩
      · rename_i hdesc
        split at hok
        · cases hok
          exact absurd ⟨rfl, rfl⟩
            (hnf (mkIssue n Severity.error "format"
              (some (C.validateSessionBody session.body))) (by simp))
        · split at hok
          · rename_i d hparse
            exact ⟨d, hok, Or.inr ⟨hdesc, hparse⟩⟩
          · cases hok

lemma truthyStr_eq_some {o : Option String} (h : truthyStr o = true) :
    o = some (jsStr o) ∧ jsStr o ≠ "" := by
  cases o with
  | none => simp [truthyStr] at h
  | some s =>
    simp only [truthyStr, ne_eq, decide_not] at h
    refine ⟨rfl, ?_⟩
    simp only [jsStr, Option.getD_some, ne_eq]
    intro hs
    subst hs
    simp at h

lemma conflictExistenceMessages_ne_nil {n : Nat} {project : Project}
    {cs : List Nat}
    (hviol : n ∈ cs ∨
      ∃ m ∈ cs, jsFind project.sessions (fun s => s.number == m) = none) :
    conflictExistenceMessages n project cs ≠ [] := by
  unfold conflictExistenceMessages
  intro hnil
  rw [List.filterMap_eq_nil_iff] at hnil
  rcases hviol with hself | ⟨m, hm, hnone⟩
  · have hmem : (some "Session cannot conflict with itself" : Option String) ∈
        cs.map (fun number =>
          if number == n then
            some "Session cannot conflict with itself"
          else
            match jsFind project.sessions (fun s => s.number == number) with
            | none => some s!"Conflicting session {number} is not in the project"
            | some _ => none) := by
      apply List.mem_map.mpr
      exact ⟨n, hself, by simp⟩
    exact Option.some_ne_none _ (hnil _ hmem)
  · by_cases hmn : m = n
    · subst hmn
      have hmem : (some "Session cannot conflict with itself" : Option String) ∈
          cs.map (fun number =>
            if number == m then
              some "Session cannot conflict with itself"
            else
              match jsFind project.sessions (fun s => s.number == number) with
              | none => some s!"Conflicting session {number} is not in the project"
              | some _ => none) := by
        apply List.mem_map.mpr
        exact ⟨m, hm, by simp⟩
      exact Option.some_ne_none _ (hnil _ hmem)
    · have hmem : (some s!"Conflicting session {m} is not in the project" : Option String) ∈
          cs.map (fun number =>
            if number == n then
              some "Session cannot conflict with itself"
            else
              match jsFind project.sessions (fun s => s.number == number) with
              | none => some s!"Conflicting session {number} is not in the project"
              | some _ => none) := by
        apply List.mem_map.mpr
        refine ⟨m, hm, ?_⟩
        simp only [beq_iff_eq, hmn, if_false]
        rw [hnone]
      exact Option.some_ne_none _ (hnil _ hmem)

lemma conflictExistenceMessages_mem {n m : Nat} {project : Project}
    {cs : List Nat} (hm : m ∈ cs) (hmn : m ≠ n)
    (hnone : jsFind project.sessions (fun s => s.number == m) = none) :
    s!"Conflicting session {m} is not in the project" ∈
      conflictExistenceMessages n project cs := by
  unfold conflictExistenceMessages
  apply List.mem_filterMap.mpr
  refine ⟨some s!"Conflicting session {m} is not in the project", ?_, rfl⟩
  apply List.mem_map.mpr
  refine ⟨m, hm, ?_⟩
  simp only [beq_iff_eq, hmn, if_false]
  rw [hnone]

lemma mapToIds_ok_mem {catalog : List LabelEntry} {names ids : List String}
    (h : mapToIds catalog names = Except.ok ids) :
    ∀ id ∈ ids, ∃ name ∈ names, ∃ e,
      jsFind catalog (fun l => l.name == name) = some e ∧ e.id = id := by
  induction names generalizing ids with
  | nil =>
    unfold mapToIds at h
    cases h
    intro id hid
    simp at hid
  | cons x xs ih =>
    unfold mapToIds at h
    split at h
    · rename_i e hfind
      split at h
      · rename_i ids' hrec
        cases h
        intro id hid
        rcases List.mem_cons.mp hid with hhead | htail
        · exact ⟨x, List.mem_cons_self x xs, e, hfind, hhead.symm⟩
        · obtain ⟨name, hname, e', hfind', hid'⟩ := ih hrec id htail
          exact ⟨name, List.mem_cons_of_mem _ hname, e', hfind', hid'⟩
      · cases h
    · cases h

lemma hasSeverityPrefix_projection (sev : Severity) (ty : String) :
    hasSeverityPrefix (sev.toLabel ++ ": " ++ ty) = true := by
  cases sev
  · have h1 : Severity.error.toLabel ++ ": " ++ ty = "error: " ++ ty := by
      have : Severity.error.toLabel ++ ": " = "error: " := rfl
      rw [this]
    rw [h1]
    unfold hasSeverityPrefix
    rw [jsStartsWith_append "error: " ty]
    simp
  · have h1 : Severity.warning.toLabel ++ ": " ++ ty = "warning: " ++ ty := by
      have : Severity.warning.toLabel ++ ": " = "warning: " := rfl
      rw [this]
    rw [h1]
    unfold hasSeverityPrefix
    rw [jsStartsWith_append "warning: " ty]
    simp
  · have h1 : Severity.check.toLabel ++ ": " ++ ty = "check: " ++ ty := by
      have : Severity.check.toLabel ++ ": " = "check: " := rfl
      rw [this]
    rw [h1]
    unfold hasSeverityPrefix
    rw [jsStartsWith_append "check: " ty]
    simp

/-- Every issue of a normal post-format run has one of the severities and
types actually pushed by the source; in particular none has type "format". -/
lemma validateSessionRest_ok_types {C : Collab} {n : Nat} {project : Project}
    {idx : Nat} {session : Session} {d : Description} {issues : List Issue}
    (h : validateSessionRest C n project idx session d = Except.ok issues) :
    ∀ i ∈ issues,
      (i.severity = Severity.error ∧
        (i.type = "chairs" ∨ i.type = "conflict" ∨ i.type = "scheduling")) ∨
      (i.severity = Severity.warning ∧
        (i.type = "capacity" ∨ i.type = "conflict" ∨ i.type = "agenda" ∨
          i.type = "minutes")) ∨
      (i.severity = Severity.check ∧ i.type = "comments") := by
  obtain ⟨chairsErrors, e4, e5, e6, -, h4, h5, h6, hissues⟩ :=
    validateSessionRest_ok h
  intro i hi
  subst hissues
  simp only [List.mem_append] at hi
  rcases hi with ((((((((h1 | h2) | h3) | hm4) | hm5) | hm6) | h7) | h8) | h9)
  · split at h1
    · simp at h1
      subst h1
      exact Or.inl ⟨rfl, Or.inl rfl⟩
    · simp at h1
  · split at h2
    · simp at h2
      subst h2
      exact Or.inl ⟨rfl, Or.inr (Or.inl rfl)⟩
    · simp at h2
  · obtain ⟨hs, ht⟩ := schedulingIssuesOf_types i h3
    exact Or.inl ⟨hs, Or.inr (Or.inr ht)⟩
  · obtain ⟨hs, ht⟩ := capacityStep_ok_types h4 i hm4
    exact Or.inr (Or.inl ⟨hs, Or.inl ht⟩)
  · obtain ⟨hs, ht⟩ := conflictSlotStep_ok_types h5 i hm5
    exact Or.inr (Or.inl ⟨hs, Or.inr (Or.inl ht)⟩)
  · rw [trackStep_ok_nil h6] at hm6
    simp at hm6
  · obtain ⟨hs, ht⟩ := commentsIssuesOf_types i h7
    exact Or.inr (Or.inr ⟨hs, ht⟩)
  · obtain ⟨hs, ht⟩ := agendaIssuesOf_types i h8
    exact Or.inr (Or.inl ⟨hs, Or.inr (Or.inr (Or.inl ht))⟩)
  · obtain ⟨hs, ht⟩ := minutesIssuesOf_types i h9
    exact Or.inr (Or.inl ⟨hs, Or.inr (Or.inr (Or.inr ht))⟩)

/-- When the session's description is cached, a normal return of
`validateSession` is exactly a normal return of the post-format rules: the
body format stage is bypassed entirely. -/
lemma validateSession_cached_ok {C : Collab} {n : Nat} {project : Project}
    {idx : Nat} {session : Session} {d : Description} {issues : List Issue}
    (hfind : findWithIdx (fun s => s.number == n) project.sessions =
      some (idx, session))
    (hdesc : session.description = some d)
    (hok : validateSession C n project = Except.ok issues) :
    validateSessionRest C n project idx session d = Except.ok issues := by
  unfold validateSession at hok
  dsimp only at hok
  split at hok
  · cases hok
  · split at hok
    · rename_i heq2
      rw [hfind] at heq2
      cases heq2
    · rename_i idx' session' heq2
      have hps : some (idx, session) = some (idx', session') := hfind.symm.trans heq2
      simp only [Option.some.injEq, Prod.mk.injEq] at hps
      obtain ⟨hidx, hsession⟩ := hps
      subst hidx
      subst hsession
      split at hok
      · rename_i d' hdesc'
        have hdd : d = d' := by
          rw [hdesc] at hdesc'
          exact (Option.some.injEq _ _ ▸ hdesc' : d = d')
        subst hdd
        exact hok
      · rename_i hdesc'
        rw [hdesc] at hdesc'
        cases hdesc'

/-- When another session (positionally distinct) shares the truthy room and
slot of the validated session, the scheduling check produces exactly one
issue, and its message list mentions that other session. -/
lemma schedulingIssuesOf_collision {n : Nat} {project : Project} {idx : Nat}
    {session s2 : Session}
    (hmem : s2 ∈ othersOf project.sessions idx)
    (hroom : truthyStr session.room = true)
    (hslot : truthyStr session.slot = true)
    (hr : s2.room = session.room) (hs : s2.slot = session.slot) :
    schedulingIssuesOf n project idx session =
      [mkIssue n Severity.error "scheduling"
        (some (schedulingErrorsOf project idx session))] ∧
    schedulingMessage (jsStr s2.room) (jsStr s2.slot) s2.title s2.number ∈
      schedulingErrorsOf project idx session := by
  have hguard : (truthyStr session.room && truthyStr session.slot) = true := by
    rw [hroom, hslot]
    rfl
  have hcol : s2 ∈ collisionsOf project idx session := by
    unfold collisionsOf
    refine List.mem_filter.mpr ⟨List.mem_filter.mpr ⟨hmem, ?_⟩, ?_⟩
    · rw [hr, hs, hroom, hslot]
      rfl
    · rw [hr, hs]
      simp
  have hmsg : schedulingMessage (jsStr s2.room) (jsStr s2.slot) s2.title s2.number ∈
      schedulingErrorsOf project idx session := by
    unfold schedulingErrorsOf
    exact List.mem_map_of_mem _ hcol
  have hlen : 0 < (schedulingErrorsOf project idx session).length :=
    List.length_pos_of_mem hmsg
  refine ⟨?_, hmsg⟩
  unfold schedulingIssuesOf
  rw [hguard, if_pos rfl, if_pos hlen]

/-! ## Claim theorems -/

/-- C1 (code bug evidence): the claim says `validateSession` never throws for
a structurally valid snapshot and a session number that resolves. The code
violates this: `c1project` is structurally valid and session 42 resolves, yet
`validateSession` throws a TypeError, because the capacity check indexes the
rooms array with the room's name (`project.rooms[session.room]`), reads
`undefined`, and then reads `.capacity` of it. -/
theorem c1_validateSession_throws_on_valid_input :
    validateProject c1project = [] ∧
    findWithIdx (fun s => s.number == 42) c1project.sessions =
      some (0, c1session) ∧
    validateSession stubCollab 42 c1project =
      Except.error
        (JsError.typeError "Cannot read properties of undefined (reading capacity)") :=
  ⟨rfl, rfl, rfl⟩

/-- C2: for a session whose description is not cached and whose body fails
format validation, `validateSession` returns exactly one issue, of severity
error and type format, carrying every format problem found, and nothing
else. -/
theorem c2_format_failure_single_issue (C : Collab) (n : Nat)
    (project : Project) (idx : Nat) (session : Session)
    (hvalid : validateProject project = [])
    (hfind : findWithIdx (fun s => s.number == n) project.sessions =
      some (idx, session))
    (hdesc : session.description = none)
    (hfmt : C.validateSessionBody session.body ≠ []) :
    validateSession C n project =
      Except.ok [mkIssue n Severity.error "format"
        (some (C.validateSessionBody session.body))] := by
  unfold validateSession
  simp [hvalid, hfind, hdesc, List.length_pos, hfmt]

/-- Witness for C2 at a concrete snapshot: the body fails validation with one
message and the returned report is exactly the one format issue. -/
theorem c2_format_failure_witness :
    validateSession failingFormatCollab 5 c2project =
      Except.ok [mkIssue 5 Severity.error "format"
        (some ["Missing required section"])] :=
  c2_format_failure_single_issue failingFormatCollab 5 c2project 0 c2session
    rfl rfl rfl (by decide)

/-- C3 (code bug evidence): the claim says a session sharing a track label
and a slot with another session receives a single warning:track issue whose
messages aggregate across all track labels. The code instead throws: it
pushes `messages: trackWarnings`, but `trackWarnings` is a `const` scoped to
the body of the preceding `for` loop, so evaluating it raises a
ReferenceError exactly when at least one track warning exists. -/
theorem c3_track_check_raises_reference_error :
    validateProject c3project = [] ∧
    0 < (trackWarningsOf c3project 0 c3session1).length ∧
    validateSession stubCollab 1 c3project =
      Except.error (JsError.referenceError "trackWarnings is not defined") :=
  ⟨rfl, by decide, rfl⟩

/-- C4 (code bug evidence): the claim says a session requesting capacity 30
gets warning:capacity in a room of capacity 15 and no such warning in a room
of capacity 30. In the code both cases throw a TypeError before any
capacity issue can be produced, because `project.rooms` is an array and the
check indexes it with the room name string. -/
theorem c4_capacity_check_throws :
    validateSession stubCollab 10 c4projectSmall =
      Except.error
        (JsError.typeError "Cannot read properties of undefined (reading capacity)") ∧
    validateSession stubCollab 10 c4projectBig =
      Except.error
        (JsError.typeError "Cannot read properties of undefined (reading capacity)") :=
  ⟨rfl, rfl⟩

/-- C7: label reconciliation is a fixed point: when the session's existing
labels restricted to the `check: `/`warning: `/`error: ` prefixes are, as a
set, exactly the `{severity}: {type}` projection of the computed issue list,
both the computed toAdd and toRemove id sets are empty. -/
theorem c7_reconciliation_fixed_point (session : Session) (report : List Issue)
    (catalog : List LabelEntry)
    (h1 : ∀ l ∈ sessionLabelsOf session, l ∈ newLabelsOf report)
    (h2 : ∀ l ∈ newLabelsOf report, l ∈ sessionLabelsOf session) :
    labelsToAdd catalog session report = Except.ok [] ∧
    labelsToRemove catalog session report = Except.ok [] := by
  have hadd : labelsToAddNames session report = [] := by
    unfold labelsToAddNames
    apply List.filter_eq_nil_iff.mpr
    intro a ha
    have hc : (sessionLabelsOf session).contains a = true :=
      List.elem_iff.mpr (h2 a ha)
    simp only [hc, Bool.not_true, Bool.false_eq_true, not_false_eq_true]
  have hrem : labelsToRemoveNames session report = [] := by
    unfold labelsToRemoveNames
    apply List.filter_eq_nil_iff.mpr
    intro a ha
    have hc : (newLabelsOf report).contains a = true :=
      List.elem_iff.mpr (h1 a ha)
    simp only [hc, Bool.not_true, Bool.and_false, Bool.false_eq_true,
      not_false_eq_true]
  refine ⟨?_, ?_⟩
  · unfold labelsToAdd
    rw [hadd]
    rfl
  · unfold labelsToRemove
    rw [hrem]
    rfl

/-- Witness for C7: a session already carrying exactly the wanted severity
label ("error: format") yields empty add and remove sets. -/
theorem c7_reconciliation_fixed_point_witness :
    labelsToAdd c7catalog c7session c7report = Except.ok [] ∧
    labelsToRemove c7catalog c7session c7report = Except.ok [] :=
  c7_reconciliation_fixed_point c7session c7report c7catalog
    (by decide) (by decide)

/-- C9: the check:comments carve-out drops the finding from the report only
when a previous body is available, both the previous and current bodies
parse, and the comments section is unchanged; when no previous body is
available, or parsing the previous body fails, the report is left untouched
(the conservative outcome, so the label is re-added). -/
theorem c9_comments_carve_out (C : Collab) (report : List Issue)
    (session : Session) (changesFile : Option String) (changes : Changes) :
    (updateReport C report session changesFile changes ≠ report →
      ∃ prev d1 d2, changes.bodyFrom = some prev ∧ prev ≠ "" ∧
        C.parseSessionBody prev = some d1 ∧
        C.parseSessionBody session.body = some d2 ∧
        d2.comments = d1.comments) ∧
    (changes.bodyFrom = none →
      updateReport C report session changesFile changes = report) ∧
    (∀ prev, changes.bodyFrom = some prev →
      C.parseSessionBody prev = none →
      updateReport C report session changesFile changes = report) := by
  have hinner : (dropCommentsFinding C report session changes ≠ report →
      ∃ prev d1 d2, changes.bodyFrom = some prev ∧ prev ≠ "" ∧
        C.parseSessionBody prev = some d1 ∧
        C.parseSessionBody session.body = some d2 ∧
        d2.comments = d1.comments) ∧
      (changes.bodyFrom = none →
        dropCommentsFinding C report session changes = report) ∧
      (∀ prev, changes.bodyFrom = some prev →
        C.parseSessionBody prev = none →
        dropCommentsFinding C report session changes = report) := by
    unfold dropCommentsFinding
    split
    · exact ⟨fun hne => absurd rfl hne, fun _ => rfl, fun _ _ _ => rfl⟩
    · rename_i htr
      have htruthy : truthyStr changes.bodyFrom = true := by
        revert htr
        cases truthyStr changes.bodyFrom <;> simp
      obtain ⟨hsome, hne⟩ := truthyStr_eq_some htruthy
      split
      · rename_i d1 d2 hp1 hp2
        split
        · rename_i hcomm
          refine ⟨fun _ => ?_, fun hnone => ?_, fun prev hprev hpn => ?_⟩
          · exact ⟨jsStr changes.bodyFrom, d1, d2, hsome, hne, hp1, hp2,
              eq_of_beq hcomm⟩
          · rw [hnone] at htruthy
            simp [truthyStr] at htruthy
          · rw [hprev] at hp1
            simp only [jsStr, Option.getD_some] at hp1
            rw [hpn] at hp1
            cases hp1
        · exact ⟨fun hne2 => absurd rfl hne2, fun _ => rfl, fun _ _ _ => rfl⟩
      · exact ⟨fun hne2 => absurd rfl hne2, fun _ => rfl, fun _ _ _ => rfl⟩
  unfold updateReport
  split
  · exact hinner
  · exact ⟨fun hne2 => absurd rfl hne2, fun _ => rfl, fun _ _ _ => rfl⟩

/-- Witness for C9: with a check:comments finding, no label on the session,
and a changes file whose previous body is missing, the report is kept as is. -/
theorem c9_comments_carve_out_witness :
    updateReport stubCollab c9report c9session (some "changes.json")
      { bodyFrom := none } = c9report :=
  (c9_comments_carve_out stubCollab c9report c9session (some "changes.json")
    { bodyFrom := none }).2.1 rfl

/-- C10 (implicit): when the session object already carries a cached
description, the body format check is skipped entirely, so a normal return
of `validateSession` never contains an error:format issue, whatever the
current body content. -/
theorem c10_cached_description_skips_format (C : Collab) (n : Nat)
    (project : Project) (idx : Nat) (session : Session) (d : Description)
    (issues : List Issue)
    (hfind : findWithIdx (fun s => s.number == n) project.sessions =
      some (idx, session))
    (hdesc : session.description = some d)
    (hok : validateSession C n project = Except.ok issues) :
    ∀ i ∈ issues, ¬(i.severity = Severity.error ∧ i.type = "format") := by
  have hrest := validateSession_cached_ok hfind hdesc hok
  intro i hi hcontra
  obtain ⟨hsev, htype⟩ := hcontra
  rcases validateSessionRest_ok_types hrest i hi with ⟨-, ht⟩ | ⟨-, ht⟩ | ⟨-, ht⟩
  · rcases ht with h | h | h
    all_goals exact absurd (htype.symm.trans h) (by decide)
  · rcases ht with h | h | h | h
    all_goals exact absurd (htype.symm.trans h) (by decide)
  · exact absurd (htype.symm.trans ht) (by decide)

/-- Witness for C10: the cached-description session's body would fail format
validation, yet the returned report has no error:format issue. -/
theorem c10_cached_description_witness :
    validateSession failingFormatCollab 3 c10project = Except.ok c10Issues ∧
    c10Issues.all
      (fun i => !(i.severity == Severity.error && i.type == "format")) = true := by
  have h := c10_cached_description_skips_format failingFormatCollab 3
    c10project 0 c10session c10desc c10Issues rfl rfl rfl
  refine ⟨rfl, List.all_eq_true.mpr ?_⟩
  intro i hi
  have hni := h i hi
  simp only [Bool.not_eq_true', Bool.and_eq_false_iff, beq_eq_false_iff_ne, ne_eq]
  tauto

/-- C8 (frame property): no label whose name lacks the `check: `/`warning: `
/`error: ` prefix (e.g. "session" or "track: *") ever enters the computed
toAdd or toRemove sets, and the literal "session" label is never in toRemove
even when present among the session's labels. -/
theorem c8_reconciliation_frame (session : Session) (report : List Issue)
    (catalog : List LabelEntry) (addIds removeIds : List String)
    (hadd : labelsToAdd catalog session report = Except.ok addIds)
    (hrem : labelsToRemove catalog session report = Except.ok removeIds) :
    (∀ name ∈ labelsToAddNames session report, hasSeverityPrefix name = true) ∧
    (∀ name ∈ labelsToRemoveNames session report,
      hasSeverityPrefix name = true ∧ name ≠ "session") ∧
    (∀ id ∈ addIds, ∃ e ∈ catalog, e.id = id ∧ hasSeverityPrefix e.name = true) ∧
    (∀ id ∈ removeIds, ∃ e ∈ catalog, e.id = id ∧
      hasSeverityPrefix e.name = true ∧ e.name ≠ "session") := by
  have haddNames : ∀ name ∈ labelsToAddNames session report,
      hasSeverityPrefix name = true := by
    intro name hname
    have hmem : name ∈ newLabelsOf report := (List.mem_filter.mp hname).1
    unfold newLabelsOf at hmem
    rw [mem_jsSort] at hmem
    obtain ⟨e, he, hproj⟩ := List.mem_map.mp hmem
    rw [← hproj]
    exact hasSeverityPrefix_projection e.severity e.type
  have hremNames : ∀ name ∈ labelsToRemoveNames session report,
      hasSeverityPrefix name = true ∧ name ≠ "session" := by
    intro name hname
    obtain ⟨hmem, hpred⟩ := List.mem_filter.mp hname
    constructor
    · unfold sessionLabelsOf at hmem
      rw [mem_jsSort] at hmem
      obtain ⟨-, hp⟩ := List.mem_filter.mp hmem
      unfold hasSeverityPrefix
      exact hp
    · rw [Bool.and_eq_true] at hpred
      have hns := hpred.1
      simpa using hns
  refine ⟨haddNames, hremNames, ?_, ?_⟩
  · intro id hid
    obtain ⟨name, hname, e, hfind, hidEq⟩ := mapToIds_ok_mem hadd id hid
    have hfind2 : catalog.find? (fun l => l.name == name) = some e := hfind
    have hcat : e ∈ catalog := List.mem_of_find?_eq_some hfind2
    have hbeq := List.find?_some hfind2
    simp only at hbeq
    have hnameEq : e.name = name := eq_of_beq hbeq
    refine ⟨e, hcat, hidEq, ?_⟩
    rw [hnameEq]
    exact haddNames name hname
  · intro id hid
    obtain ⟨name, hname, e, hfind, hidEq⟩ := mapToIds_ok_mem hrem id hid
    have hfind2 : catalog.find? (fun l => l.name == name) = some e := hfind
    have hcat : e ∈ catalog := List.mem_of_find?_eq_some hfind2
    have hbeq := List.find?_some hfind2
    simp only at hbeq
    have hnameEq : e.name = name := eq_of_beq hbeq
    obtain ⟨hpre, hns⟩ := hremNames name hname
    refine ⟨e, hcat, hidEq, ?_, ?_⟩
    · rw [hnameEq]
      exact hpre
    · rw [hnameEq]
      exact hns

/-- Witness for C8: with a "session", a "track: privacy" and a
"warning: capacity" label on the session and a report wanting
"error: scheduling", every name entering either set has a severity prefix
and "session" stays out of toRemove. -/
theorem c8_reconciliation_frame_witness :
    (labelsToAddNames c8session c8report).all
      (fun name => hasSeverityPrefix name) = true ∧
    (labelsToRemoveNames c8session c8report).all
      (fun name => hasSeverityPrefix name && name != "session") = true := by
  obtain ⟨h1, h2, -, -⟩ := c8_reconciliation_frame c8session c8report c8catalog
    ["lbl-a"] ["lbl-b"] rfl rfl
  refine ⟨List.all_eq_true.mpr ?_, List.all_eq_true.mpr ?_⟩
  · intro name hname
    exact h1 name hname
  · intro name hname
    obtain ⟨ha, hb⟩ := h2 name hname
    simp [ha, hb]

/-- C5 (amended): for two positionally distinct sessions sharing a truthy
room and slot, whenever `validateSession` on the first returns an issue list
containing no error:format issue, that list contains the error:scheduling
issue whose messages mention the other session's title and number. (The
claim as stated promises the issue unconditionally and fails; see the
counterexample. The symmetric direction is this theorem with the two
sessions' roles swapped.) -/
theorem c5_scheduling_collision_reported (C : Collab) (n : Nat)
    (project : Project) (i1 j2 : Nat) (s1 s2 : Session) (issues : List Issue)
    (hfind : findWithIdx (fun s => s.number == n) project.sessions =
      some (i1, s1))
    (hj2 : project.sessions[j2]? = some s2) (hne : j2 ≠ i1)
    (hroom : truthyStr s1.room = true) (hslot : truthyStr s1.slot = true)
    (hr : s2.room = s1.room) (hs : s2.slot = s1.slot)
    (hok : validateSession C n project = Except.ok issues)
    (hnf : ∀ i ∈ issues, ¬(i.severity = Severity.error ∧ i.type = "format")) :
    mkIssue n Severity.error "scheduling"
      (some (schedulingErrorsOf project i1 s1)) ∈ issues ∧
    schedulingMessage (jsStr s2.room) (jsStr s2.slot) s2.title s2.number ∈
      schedulingErrorsOf project i1 s1 := by
  obtain ⟨d, hrest, -⟩ := validateSession_ok_rest hfind hok hnf
  obtain ⟨chairsErrors, e4, e5, e6, -, -, -, -, hissues⟩ :=
    validateSessionRest_ok hrest
  have hmem2 : s2 ∈ othersOf project.sessions i1 := mem_othersOf hj2 hne
  obtain ⟨hsched, hmsg⟩ := schedulingIssuesOf_collision
    (n := n) hmem2 hroom hslot hr hs
  refine ⟨?_, hmsg⟩
  subst hissues
  rw [hsched]
  simp [List.mem_append]

/-- Witness for C5 at a concrete snapshot: sessions 1 and 2 share the room
and the slot; validating session 1 yields exactly the scheduling issue and
its message names session 2. -/
theorem c5_scheduling_collision_witness :
    validateSession stubCollab 1 c5wproject = Except.ok c5wIssues ∧
    mkIssue 1 Severity.error "scheduling"
      (some (schedulingErrorsOf c5wproject 0 c5ws1)) ∈ c5wIssues ∧
    schedulingMessage "Room A (30)" "9:30 - 10:30" "S2" 2 ∈
      schedulingErrorsOf c5wproject 0 c5ws1 := by
  obtain ⟨h1, h2⟩ := c5_scheduling_collision_reported stubCollab 1 c5wproject
    0 1 c5ws1 c5ws2 c5wIssues rfl rfl (by decide) rfl rfl rfl rfl rfl
    (by decide)
  exact ⟨rfl, h1, h2⟩

/-- Counterexample for C5 as stated: the two sessions share room and slot,
but session 1's body fails format validation, so `validateSession` returns
only the error:format issue and emits no error:scheduling issue. -/
theorem c5_counterexample :
    c5xs1.room = some "Room A (30)" ∧ c5xs1.slot = some "9:30 - 10:30" ∧
    c5xs2.room = c5xs1.room ∧ c5xs2.slot = c5xs1.slot ∧
    c5xs1.number ≠ c5xs2.number ∧
    validateProject c5xproject = [] ∧
    emitsB failingFormatCollab 1 c5xproject Severity.error "scheduling" = false :=
  ⟨rfl, rfl, rfl, rfl, by decide, rfl, rfl⟩

/-- C6 (amended): for a session whose description (cached or freshly parsed)
declares a conflict with itself or with a session number absent from the
snapshot, whenever `validateSession` returns an issue list containing no
error:format issue, that list contains exactly one error:conflict issue,
aggregating the per-violation messages (a message mentioning N for each
non-existent N), and no warning:conflict issue. (The claim as stated
promises this unconditionally and fails; see the counterexample.) -/
theorem c6_conflict_error_aggregation (C : Collab) (n : Nat)
    (project : Project) (idx : Nat) (session : Session) (d : Description)
    (cs : List Nat) (issues : List Issue)
    (hfind : findWithIdx (fun s => s.number == n) project.sessions =
      some (idx, session))
    (hd : session.description = some d ∨
      (session.description = none ∧ C.parseSessionBody session.body = some d))
    (hcs : d.conflicts = some cs)
    (hviol : n ∈ cs ∨
      ∃ m ∈ cs, jsFind project.sessions (fun s => s.number == m) = none)
    (hok : validateSession C n project = Except.ok issues)
    (hnf : ∀ i ∈ issues, ¬(i.severity = Severity.error ∧ i.type = "format")) :
    issues.filter (fun i => i.severity == Severity.error && i.type == "conflict") =
      [mkIssue n Severity.error "conflict"
        (some (conflictExistenceMessages n project cs))] ∧
    (∀ i ∈ issues, ¬(i.severity = Severity.warning ∧ i.type = "conflict")) ∧
    (∀ m ∈ cs, m ≠ n → jsFind project.sessions (fun s => s.number == m) = none →
      s!"Conflicting session {m} is not in the project" ∈
        conflictExistenceMessages n project cs) := by
  obtain ⟨d', hrest, hd'⟩ := validateSession_ok_rest hfind hok hnf
  have hdd : d = d' := by
    rcases hd with h1 | ⟨h1, h2⟩ <;> rcases hd' with h1' | ⟨h1', h2'⟩
    · rw [h1] at h1'
      injection h1'
    · rw [h1] at h1'
      cases h1'
    · rw [h1] at h1'
      cases h1'
    · rw [h2] at h2'
      injection h2'
  subst hdd
  obtain ⟨chairsErrors, e4, e5, e6, hch, hcap, hcs5, htr, hissues⟩ :=
    validateSessionRest_ok hrest
  have hconf : conflictErrorsOf n project d =
      conflictExistenceMessages n project cs := by
    unfold conflictErrorsOf
    rw [hcs]
  have hmsgs_ne : conflictExistenceMessages n project cs ≠ [] :=
    conflictExistenceMessages_ne_nil hviol
  have hlen : 0 < (conflictErrorsOf n project d).length := by
    rw [hconf]
    exact List.length_pos.mpr hmsgs_ne
  have he5 : e5 = [] := by
    rw [decide_eq_true hlen] at hcs5
    have h2 := conflictSlotStep_true.symm.trans hcs5
    injection h2 with h3
    exact h3.symm
  have he6 : e6 = [] := trackStep_ok_nil htr
  rw [hconf, if_pos (List.length_pos.mpr hmsgs_ne)] at hissues
  subst he5
  subst he6
  have hE1 : ∀ i ∈ (if chairsErrors.length > 0 then
      [mkIssue n Severity.error "chairs" (some chairsErrors)] else []),
      i.severity = Severity.error ∧ i.type = "chairs" := by
    intro i hi
    split at hi
    · simp at hi
      subst hi
      exact ⟨rfl, rfl⟩
    · simp at hi
  have hfil : ∀ (l : List Issue), (∀ i ∈ l, i.type ≠ "conflict") →
      l.filter (fun i => i.severity == Severity.error && i.type == "conflict") = [] := by
    intro l hl
    apply List.filter_eq_nil_iff.mpr
    intro a ha
    simp [hl a ha]
  subst hissues
  refine ⟨?_, ?_, ?_⟩
  · simp only [List.filter_append]
    have f1 : (if chairsErrors.length > 0 then
        [mkIssue n Severity.error "chairs" (some chairsErrors)] else []).filter
        (fun i => i.severity == Severity.error && i.type == "conflict") = [] :=
      hfil _ (fun i hi => by
        have h := (hE1 i hi).2
        rw [h]
        decide)
    have f3 : (schedulingIssuesOf n project idx session).filter
        (fun i => i.severity == Severity.error && i.type == "conflict") = [] :=
      hfil _ (fun i hi => by
        have h := (schedulingIssuesOf_types i hi).2
        rw [h]
        decide)
    have f4 : e4.filter
        (fun i => i.severity == Severity.error && i.type == "conflict") = [] :=
      hfil _ (fun i hi => by
        have h := (capacityStep_ok_types hcap i hi).2
        rw [h]
        decide)
    have f7 : (commentsIssuesOf n d).filter
        (fun i => i.severity == Severity.error && i.type == "conflict") = [] :=
      hfil _ (fun i hi => by
        have h := (commentsIssuesOf_types i hi).2
        rw [h]
        decide)
    have f8 : (agendaIssuesOf C n project session d).filter
        (fun i => i.severity == Severity.error && i.type == "conflict") = [] :=
      hfil _ (fun i hi => by
        have h := (agendaIssuesOf_types i hi).2
        rw [h]
        decide)
    have f9 : (minutesIssuesOf C n project session d).filter
        (fun i => i.severity == Severity.error && i.type == "conflict") = [] :=
      hfil _ (fun i hi => by
        have h := (minutesIssuesOf_types i hi).2
        rw [h]
        decide)
    rw [f1, f3, f4, f7, f8, f9]
    simp
    exact ⟨rfl, rfl⟩
  · intro i hi
    rintro ⟨hsev, htype⟩
    simp only [List.mem_append] at hi
    rcases hi with ((((((((h1 | h2) | h3) | h4) | h5) | h6) | h7) | h8) | h9)
    · exact absurd ((hE1 i h1).1.symm.trans hsev) (by decide)
    · simp at h2
      subst h2
      cases hsev
    · exact absurd (((schedulingIssuesOf_types i h3).2).symm.trans htype) (by decide)
    · exact absurd (((capacityStep_ok_types hcap i h4).2).symm.trans htype) (by decide)
    · simp at h5
    · simp at h6
    · exact absurd (((commentsIssuesOf_types i h7).2).symm.trans htype) (by decide)
    · exact absurd (((agendaIssuesOf_types i h8).2).symm.trans htype) (by decide)
    · exact absurd (((minutesIssuesOf_types i h9).2).symm.trans htype) (by decide)
  · intro m hm hmn hnone
    exact conflictExistenceMessages_mem hm hmn hnone

/-- Witness for C6 at a concrete snapshot: session 7 declares a conflict with
the non-existent session 99; the report carries exactly one error:conflict
issue whose message mentions 99, and no warning:conflict issue. -/
theorem c6_conflict_error_witness :
    validateSession stubCollab 7 c6project = Except.ok c6Issues ∧
    c6Issues.filter
      (fun i => i.severity == Severity.error && i.type == "conflict") =
      [mkIssue 7 Severity.error "conflict"
        (some (conflictExistenceMessages 7 c6project [99]))] ∧
    c6Issues.all
      (fun i => !(i.severity == Severity.warning && i.type == "conflict")) = true ∧
    "Conflicting session 99 is not in the project" ∈
      conflictExistenceMessages 7 c6project [99] := by
  obtain ⟨h1, h2, h3⟩ := c6_conflict_error_aggregation stubCollab 7 c6project
    0 c6session c6desc [99] c6Issues rfl (Or.inl rfl) rfl
    (Or.inr ⟨99, by decide, rfl⟩) rfl (by decide)
  refine ⟨rfl, h1, List.all_eq_true.mpr ?_, ?_⟩
  · intro i hi
    have h := h2 i hi
    simp only [Bool.not_eq_true', Bool.and_eq_false_iff, beq_eq_false_iff_ne,
      ne_eq]
    tauto
  · exact h3 99 (by decide) (by decide) rfl

/-- Counterexample for C6 as stated: session 7's cached description declares
a conflict with itself (a violation), but it also has a room assigned and
requests capacity 30, so the capacity check throws before the function can
return and no error:conflict issue is ever emitted. -/
theorem c6_counterexample :
    c6xsession.description = some c6xdesc ∧
    c6xdesc.conflicts = some [7] ∧ (7 : Nat) ∈ [7] ∧
    emitsB stubCollab 7 c6xproject Severity.error "conflict" = false :=
  ⟨rfl, rfl, by decide, rfl⟩
